import Mathlib

/-!
Shallow embedding of `ai_search_agent.py` (Microsoft Rewards Bing Search
Automation). Python strings are modelled as `List Char`; the random
choices, the generative-text service and the browser driver are modelled
as explicit inputs (oracles); exceptions are modelled with sum/option
types and explicit control flow, mirroring the `try`/`except` structure
of the source.
-/

namespace AISearchAgent

/-- A Python string, modelled as a list of characters. -/
abbrev PyStr := List Char

/-- Convert a Lean string literal to the model's string type. -/
def strOf (s : String) : PyStr := s.data

/-- `t` occurs as a contiguous substring of `s`
(Python `t in s`). -/
def substrB (t : PyStr) : PyStr → Bool
  | [] => t.isPrefixOf []
  | c :: s => t.isPrefixOf (c :: s) || substrB t s

/-- Python `s.lower()` on the model strings. -/
def toLowerStr (s : PyStr) : PyStr := s.map Char.toLower

/-- `search_params["categories"]` from `AISearchAgent.__init__`. -/
def categories : List PyStr :=
  [strOf "technology", strOf "current events", strOf "pop culture",
   strOf "science", strOf "entertainment", strOf "sports", strOf "health",
   strOf "travel", strOf "food", strOf "history", strOf "nature",
   strOf "space", strOf "education", strOf "business"]

/-- `forbidden_terms` from `_validate_query`. -/
def forbidden_terms : List PyStr :=
  [strOf "explicit", strOf "illegal", strOf "hack", strOf "crack"]

/-- `_validate_query` from the source: rejects empty or short queries,
overlong queries, and queries containing a forbidden term
(case-insensitive substring). -/
def validate_query (query : PyStr) : Bool :=
  if query.isEmpty || query.length < 3 then false
  else if query.length > 100 then false
  else if forbidden_terms.any (fun term => substrB term (toLowerStr query)) then false
  else true

/-- Drop characters satisfying `p` from the end of a string. -/
def dropWhileEnd (p : Char → Bool) (s : PyStr) : PyStr :=
  (s.reverse.dropWhile p).reverse

/-- Python `s.strip(chars)`: drop characters satisfying `p` from both ends. -/
def stripChars (p : Char → Bool) (s : PyStr) : PyStr :=
  dropWhileEnd p (s.dropWhile p)

/-- Model of the raw-response cleanup in `generate_search_query`:
strip whitespace, then double quotes (code 34), then single quotes
(code 39) from both ends, as the chained strip calls do. -/
def cleanResponse (s : PyStr) : PyStr :=
  stripChars (fun c => c == Char.ofNat 39)
    (stripChars (fun c => c == Char.ofNat 34)
      (stripChars Char.isWhitespace s))

/-- One generation attempt's oracle data: the randomly selected category,
query type and complexity, and the service response — `none` models the
service call (or response access) raising an exception. -/
structure Attempt where
  category : PyStr
  query_type : PyStr
  complexity : PyStr
  serviceText : Option PyStr

/-- The triple returned by `generate_search_query`. -/
structure GeneratedQuery where
  query : PyStr
  category : PyStr
  query_type : PyStr
  deriving DecidableEq

/-- An attempt fails when the service call raises, or when the cleaned
response fails `_validate_query`. -/
def attemptFails (a : Attempt) : Bool :=
  match a.serviceText with
  | none => true
  | some t => !(validate_query (cleanResponse t))

/-- History truncation from `generate_search_query`:
`if len > 20: history = history[-20:]`. -/
def evictHistory (h : List PyStr) : List PyStr :=
  if h.length > 20 then h.drop (h.length - 20) else h

/-- The last `n` elements of a list (Python `l[-n:]` when `len(l) > n`). -/
def lastN (n : Nat) (l : List PyStr) : List PyStr := l.drop (l.length - n)

/-- `generate_search_query`: runs the attempts in order (at most
`max_retries = 3` in the real run), returning on the first attempt whose
cleaned response validates, appending it to the history with eviction;
when all attempts are exhausted, returns the fallback built from a random
category label, tagged `general`/`fallback`, without touching the history.
The third component counts the service calls performed. -/
def generate_search_query (history : List PyStr) (fallbackCategory : PyStr) :
    List Attempt → GeneratedQuery × List PyStr × Nat
  | [] =>
    (⟨strOf "what is " ++ fallbackCategory, strOf "general", strOf "fallback"⟩,
      history, 0)
  | a :: rest =>
    match a.serviceText with
    | none =>
      let out := generate_search_query history fallbackCategory rest
      (out.1, out.2.1, out.2.2 + 1)
    | some t =>
      let q := cleanResponse t
      if validate_query q then
        (⟨q, a.category, a.query_type⟩, evictHistory (history ++ [q]), 1)
      else
        let out := generate_search_query history fallbackCategory rest
        (out.1, out.2.1, out.2.2 + 1)

/-- The behaviour of one driver-level call: it returns normally, raises
`TimeoutException`, or raises some other exception carrying the given
message text. -/
inductive PyEvent where
  | ret
  | timeoutExc
  | exc (msg : PyStr)
  deriving DecidableEq

/-- A Python exception as seen by the handlers of `execute_search`. -/
inductive PyExc where
  | timeoutException
  | other (msg : PyStr)
  deriving DecidableEq

/-- The exception (if any) raised by a driver call that behaves as `ev`. -/
def stepExc (ev : PyEvent) : Option PyExc :=
  match ev with
  | .ret => none
  | .timeoutExc => some .timeoutException
  | .exc m => some (.other m)

/-- `_human_like_typing`: the body has no `try`/`except`, so an exception
raised while sending characters propagates to the caller unchanged. -/
def human_like_typing (typingEvent : PyEvent) : Except PyExc Unit :=
  match stepExc typingEvent with
  | none => .ok ()
  | some e => .error e

/-- `_simulate_human_behavior`: its whole body sits inside
`try ... except Exception`, whose handler only emits a debug-level log
line; the function never propagates an exception. The returned Bool
records whether the debug line was emitted. -/
def simulate_human_behavior (innerExc : Option PyExc) : Except PyExc Bool :=
  match innerExc with
  | none => .ok false
  | some _ => .ok true

/-- The oracle for one `execute_search` call: how each driver-level step
behaves, what (if anything) is raised inside the cosmetic behaviour
simulation, and the URL the driver reports on success. -/
structure DriverEnv where
  nav : PyEvent
  waitBox : PyEvent
  typing : PyEvent
  submit : PyEvent
  waitResults : PyEvent
  behaviorExc : Option PyExc
  currentUrl : PyStr
  deriving DecidableEq

/-- The triple returned by `execute_search`. -/
structure SearchOutcome where
  success : Bool
  result_locator : PyStr
  execution_time : ℚ
  deriving DecidableEq

/-- The two `except` clauses of `execute_search`: `TimeoutException`
yields the `timeout` outcome, any other exception yields the
`error: <message>` outcome, both with the elapsed time measured at the
failure point. -/
def outcomeOfExc (e : PyExc) (t : ℚ) : SearchOutcome :=
  match e with
  | .timeoutException => ⟨false, strOf "timeout", t⟩
  | .other m => ⟨false, strOf "error: " ++ m, t⟩

/-- `execute_search`: navigate, wait for the search box, type the query
(via `_human_like_typing`), submit, wait for results, run the cosmetic
behaviour simulation, and return the current URL with the elapsed time;
the first exception raised in the `try` body reaches one of the two
handlers. `startTime` and `endTime` are the two wall-clock readings. -/
def execute_search (env : DriverEnv) (startTime endTime : ℚ) : SearchOutcome :=
  let t := endTime - startTime
  match stepExc env.nav with
  | some e => outcomeOfExc e t
  | none =>
  match stepExc env.waitBox with
  | some e => outcomeOfExc e t
  | none =>
  match human_like_typing env.typing with
  | .error e => outcomeOfExc e t
  | .ok _ =>
  match stepExc env.submit with
  | some e => outcomeOfExc e t
  | none =>
  match stepExc env.waitResults with
  | some e => outcomeOfExc e t
  | none =>
  match simulate_human_behavior env.behaviorExc with
  | .error e => outcomeOfExc e t
  | .ok _ => ⟨true, env.currentUrl, t⟩

/-- The first exception raised inside the `try` body of `execute_search`
(exceptions inside the behaviour simulation are swallowed there and never
reach the handlers). -/
def raisedExc (env : DriverEnv) : Option PyExc :=
  (stepExc env.nav) <|> (stepExc env.waitBox) <|> (stepExc env.typing) <|>
    (stepExc env.submit) <|> (stepExc env.waitResults)

/-- One row of the per-run CSV log, in column order. -/
structure LogRow where
  timestamp : PyStr
  generated_query : PyStr
  search_url : PyStr
  response_status : PyStr
  execution_time : ℚ
  category : PyStr
  query_type : PyStr
  deriving DecidableEq

/-- `_log_search_result`: writes one row whose `response_status` column is
`success` when the outcome succeeded and `failed` otherwise, and whose
`search_url` column holds the `url` argument (the result locator). -/
def log_search_result (ts query category query_type : PyStr)
    (success : Bool) (url : PyStr) (execution_time : ℚ) : LogRow :=
  { timestamp := ts, generated_query := query, search_url := url,
    response_status := if success then strOf "success" else strOf "failed",
    execution_time := execution_time, category := category,
    query_type := query_type }

/-- The keyword test of the cycle-level exception handler in `run`:
`"driver" in str(e).lower() or "session" in str(e).lower()`. -/
def session_fault_kw (msg : PyStr) : Bool :=
  substrB (strOf "driver") (toLowerStr msg) ||
    substrB (strOf "session") (toLowerStr msg)

/-- What one iteration of the `run` loop does, as seen from outside:
either the cycle body completes and produces a search outcome (which is
then logged and counted), or a `KeyboardInterrupt` arrives, or an
unexpected exception with message `msg` is raised before the row is
logged (`recoverOk` is the result `_recover_from_browser_crash` would
return if called). -/
inductive CycleEvent where
  | outcome (ts query category query_type : PyStr) (success : Bool)
      (url : PyStr) (t : ℚ)
  | interrupt
  | unexpected (msg : PyStr) (recoverOk : Bool)

/-- The mutable state of the `run` loop: the two counters, the CSV log
contents, and the number of recovery attempts made so far. -/
structure RunState where
  successful_searches : Nat
  failed_searches : Nat
  log : List LogRow
  recovery_attempts : Nat
  deriving DecidableEq

/-- The state at the top of `run`: both counters zero, the log holding
only its header (modelled as the empty row list), no recoveries. -/
def initState : RunState := ⟨0, 0, [], 0⟩

/-- The `for cycle in range(1, cycles + 1)` loop of `run`, driven by one
`CycleEvent` per cycle. A completed cycle appends its row and bumps one
counter; `KeyboardInterrupt` breaks out; an unexpected exception bumps
the failure counter and, when its text matches the session-fault
keywords, triggers exactly one recovery attempt — a failed recovery
breaks out of the loop. -/
def run_loop : RunState → List CycleEvent → RunState
  | s, [] => s
  | s, .outcome ts q c qt success url t :: rest =>
    let s1 : RunState :=
      { s with
        log := s.log ++ [log_search_result ts q c qt success url t],
        successful_searches :=
          if success then s.successful_searches + 1 else s.successful_searches,
        failed_searches :=
          if success then s.failed_searches else s.failed_searches + 1 }
    run_loop s1 rest
  | s, .interrupt :: _ => s
  | s, .unexpected msg recoverOk :: rest =>
    let s1 : RunState := { s with failed_searches := s.failed_searches + 1 }
    if session_fault_kw msg then
      let s2 : RunState :=
        { s1 with recovery_attempts := s1.recovery_attempts + 1 }
      if recoverOk then run_loop s2 rest else s2
    else run_loop s1 rest

/-- The row a cycle event contributes to the log, if any. -/
def rowOfEvent : CycleEvent → Option LogRow
  | .outcome ts q c qt success url t =>
    some (log_search_result ts q c qt success url t)
  | _ => none

/-- Whether a cycle event is a normally completed cycle. -/
def isOutcome : CycleEvent → Bool
  | .outcome _ _ _ _ _ _ _ => true
  | _ => false

/-- The data printed by `_print_final_summary`. -/
structure Summary where
  successful : Nat
  failed : Nat
  success_rate : ℚ
  session_duration : ℚ
  deriving DecidableEq

/-- `_print_final_summary`: the success rate is
`successful / total_executed * 100` guarded by `total_executed > 0`,
and the duration is the difference of the two clock readings. -/
def print_final_summary (successful failed : Nat)
    (sessionStart now : ℚ) : Summary :=
  let total_executed := successful + failed
  let success_rate : ℚ :=
    if total_executed > 0 then
      (successful : ℚ) / (total_executed : ℚ) * 100
    else 0
  { successful := successful, failed := failed,
    success_rate := success_rate, session_duration := now - sessionStart }

/-- How `AISearchAgent.__init__` can end: fully constructed; raising
after `webdriver.Edge(...)` has created the driver (the stealth script
or the CSV-header write fails); or raising before the driver exists
(config or Gemini initialization fails, or the driver launch itself). -/
inductive InitResult where
  | ok
  | failAfterBrowser (msg : PyStr)
  | failBeforeBrowser (msg : PyStr)
  deriving DecidableEq

/-- What is observable after `main` returns: whether a driver instance
was ever created, whether `cleanup` ran, the final summary `run` printed
(if it was reached), and whether the fatal-error handler fired. -/
structure MainResult where
  driverCreated : Bool
  cleanupRan : Bool
  summary : Option Summary
  fatalPrinted : Bool
  deriving DecidableEq

/-- `main`: `with AISearchAgent() as agent: agent.run()`. When the
constructor succeeds, the context is entered, `run` executes its loop
and always prints its final summary, and `__exit__` then calls
`cleanup`. When the constructor raises, the `with` statement never
enters the context, so `__exit__` — and hence `cleanup` — does not run;
the exception falls through to the `except Exception` handler of `main`,
which prints the fatal message. -/
def main (init : InitResult) (events : List CycleEvent)
    (sessionStart now : ℚ) : MainResult :=
  match init with
  | .ok =>
    let s := run_loop initState events
    { driverCreated := true, cleanupRan := true,
      summary :=
        some (print_final_summary s.successful_searches s.failed_searches
          sessionStart now),
      fatalPrinted := false }
  | .failAfterBrowser _ =>
    { driverCreated := true, cleanupRan := false,
      summary := none, fatalPrinted := true }
  | .failBeforeBrowser _ =>
    { driverCreated := false, cleanupRan := false,
      summary := none, fatalPrinted := true }

/-- The outcome `execute_search` produces, as a function of the first
exception raised in its `try` body: success with the current URL when
nothing is raised, the `timeout` outcome for `TimeoutException`, and the
`error: <message>` outcome for any other exception. -/
def outcome_of_run (env : DriverEnv) (t : ℚ) : SearchOutcome :=
  match raisedExc env with
  | none => ⟨true, env.currentUrl, t⟩
  | some .timeoutException => ⟨false, strOf "timeout", t⟩
  | some (.other m) => ⟨false, strOf "error: " ++ m, t⟩

/-- A driver environment whose wait for the search box times out. -/
def timeoutEnv : DriverEnv :=
  ⟨.ret, .timeoutExc, .ret, .ret, .ret, none, strOf "u"⟩

/-- A driver environment that is healthy except that sending a character
inside `_human_like_typing` raises. -/
def typingFailEnv : DriverEnv :=
  ⟨.ret, .ret, .exc (strOf "element not interactable"), .ret, .ret, none,
    strOf "u"⟩

/-- A concrete attempt whose service call raises. -/
def failedAttempt : Attempt :=
  ⟨strOf "science", strOf "fact", strOf "simple", none⟩

/-- A concrete normally-completed cycle. -/
def sampleOutcomeEvent : CycleEvent :=
  .outcome (strOf "ts") (strOf "q") (strOf "science") (strOf "fact") true
    (strOf "u") 2

/-! ### Lemmas about query validation and generation -/

theorem validate_query_spec (q : PyStr) (h : validate_query q = true) :
    3 ≤ q.length ∧ q.length ≤ 100 ∧
      forbidden_terms.all (fun t => !(substrB t (toLowerStr q))) = true := by
  rw [validate_query] at h
  split at h
  · exact absurd h Bool.false_ne_true
  next hc1 =>
    split at h
    · exact absurd h Bool.false_ne_true
    next hc2 =>
      split at h
      · exact absurd h Bool.false_ne_true
      next hc3 =>
        refine ⟨?_, ?_, ?_⟩
        · simp only [Bool.or_eq_true, decide_eq_true_eq, not_or] at hc1
          omega
        · simpa using hc2
        · rw [List.all_eq_true]
          intro t ht
          simp only [List.any_eq_true, not_exists, not_and] at hc3
          simp [hc3 t ht]

theorem fallback_queries_valid :
    categories.all (fun c => validate_query (strOf "what is " ++ c)) = true := by
  decide

theorem generate_all_fail (history : List PyStr) (fb : PyStr)
    (attempts : List Attempt)
    (hfail : ∀ a ∈ attempts, attemptFails a = true) :
    generate_search_query history fb attempts =
      (⟨strOf "what is " ++ fb, strOf "general", strOf "fallback"⟩, history,
        attempts.length) := by
  induction attempts with
  | nil => rfl
  | cons a rest ih =>
    have ha := hfail a (List.mem_cons_self a rest)
    have hrest : ∀ x ∈ rest, attemptFails x = true := fun x hx =>
      hfail x (List.mem_cons_of_mem a hx)
    rw [attemptFails] at ha
    cases hst : a.serviceText with
    | none => simp [generate_search_query, hst, ih hrest]
    | some t =>
      rw [hst] at ha
      simp only [Bool.not_eq_eq_eq_not, Bool.not_true] at ha
      simp [generate_search_query, hst, ha, ih hrest]

/-- C4: every query returned by `generate_search_query` — whether a
validated service-generated query or the fallback built from a category
label — has length at least 3 and at most 100 and contains no forbidden
term as a case-insensitive substring. -/
theorem generated_query_safe (history : List PyStr) (fb : PyStr)
    (attempts : List Attempt) (hfb : fb ∈ categories) :
    3 ≤ (generate_search_query history fb attempts).1.query.length ∧
      (generate_search_query history fb attempts).1.query.length ≤ 100 ∧
      forbidden_terms.all
        (fun t =>
          !(substrB t
            (toLowerStr (generate_search_query history fb attempts).1.query)))
        = true := by
  induction attempts with
  | nil =>
    have hv : validate_query (strOf "what is " ++ fb) = true := by
      have := fallback_queries_valid
      rw [List.all_eq_true] at this
      exact this fb hfb
    exact validate_query_spec _ hv
  | cons a rest ih =>
    cases hst : a.serviceText with
    | none => simpa [generate_search_query, hst] using ih
    | some t =>
      by_cases hv : validate_query (cleanResponse t) = true
      · have := validate_query_spec _ hv
        simpa [generate_search_query, hst, hv] using this
      · simpa [generate_search_query, hst, hv] using ih

theorem generated_query_safe_witness :
    3 ≤ (generate_search_query [] (strOf "food") []).1.query.length ∧
      (generate_search_query [] (strOf "food") []).1.query.length ≤ 100 ∧
      forbidden_terms.all
        (fun t =>
          !(substrB t
            (toLowerStr (generate_search_query [] (strOf "food") []).1.query)))
        = true :=
  generated_query_safe [] (strOf "food") [] (by decide)

/-- C5: when all three generation attempts fail (service error or
validation rejection), `generate_search_query` returns — without raising
— the fallback triple tagged with category `general` and query type
`fallback`, leaving the history untouched; the service-call count is
exactly 3, the three failed attempts, so the fallback path itself makes
no service call. -/
theorem generate_fallback_after_three (history : List PyStr) (fb : PyStr)
    (attempts : List Attempt) (hlen : attempts.length = 3)
    (hfail : ∀ a ∈ attempts, attemptFails a = true) :
    generate_search_query history fb attempts =
      (⟨strOf "what is " ++ fb, strOf "general", strOf "fallback"⟩,
        history, 3) := by
  rw [generate_all_fail history fb attempts hfail, hlen]

theorem generate_fallback_after_three_witness :
    generate_search_query [] (strOf "travel")
        [failedAttempt, failedAttempt, failedAttempt] =
      (⟨strOf "what is " ++ strOf "travel", strOf "general",
        strOf "fallback"⟩, [], 3) :=
  generate_fallback_after_three [] (strOf "travel")
    [failedAttempt, failedAttempt, failedAttempt] (by decide) (by decide)

theorem evictHistory_eq_lastN (h : List PyStr) :
    evictHistory h = lastN 20 h := by
  rw [evictHistory, lastN]
  split
  · rfl
  · next hle =>
    have h0 : h.length - 20 = 0 := by omega
    rw [h0, List.drop_zero]

theorem lastN_length_le (n : Nat) (l : List PyStr) :
    (lastN n l).length ≤ n := by
  rw [lastN, List.length_drop]
  omega

/-- C6: starting from a history of at most 20 entries, one
`generate_search_query` call leaves at most 20 entries; the history is
either unchanged (failed generation and fallback) or equals the 20 most
recent entries of the history with the returned query appended — so a
21st entry evicts the oldest. -/
theorem search_history_bounded (history : List PyStr) (fb : PyStr)
    (attempts : List Attempt) (h : history.length ≤ 20) :
    (generate_search_query history fb attempts).2.1.length ≤ 20 ∧
      ((generate_search_query history fb attempts).2.1 = history ∨
        (generate_search_query history fb attempts).2.1 =
          lastN 20
            (history ++ [(generate_search_query history fb attempts).1.query])) := by
  induction attempts with
  | nil => exact ⟨h, Or.inl rfl⟩
  | cons a rest ih =>
    cases hst : a.serviceText with
    | none => simpa [generate_search_query, hst] using ih
    | some t =>
      by_cases hv : validate_query (cleanResponse t) = true
      · refine ⟨?_, Or.inr ?_⟩
        · simp only [generate_search_query, hst, hv, if_true,
            evictHistory_eq_lastN]
          exact lastN_length_le 20 _
        · simp [generate_search_query, hst, hv, evictHistory_eq_lastN]
      · simpa [generate_search_query, hst, hv] using ih

theorem search_history_bounded_witness :
    (generate_search_query [] (strOf "food") []).2.1.length ≤ 20 ∧
      ((generate_search_query [] (strOf "food") []).2.1 = [] ∨
        (generate_search_query [] (strOf "food") []).2.1 =
          lastN 20
            ([] ++ [(generate_search_query [] (strOf "food") []).1.query])) :=
  search_history_bounded [] (strOf "food") [] (by decide)

/-! ### Lemmas about search execution and logging -/

theorem execute_search_time (env : DriverEnv) (startTime endTime : ℚ) :
    (execute_search env startTime endTime).execution_time =
      endTime - startTime := by
  obtain ⟨nav, waitBox, typing, submit, waitResults, behaviorExc, url⟩ := env
  cases nav <;> cases waitBox <;> cases typing <;> cases submit <;>
    cases waitResults <;> cases behaviorExc <;> rfl

/-- C7: `execute_search` always returns the outcome determined by the
first exception of the `try` body — success with the current URL when
nothing is raised, success=false with locator `timeout` on a page-wait
timeout, success=false with locator `error: <message>` on any other
exception (so it never propagates either failure class) — and, the clock
being monotone, its `execution_time` is nonnegative. -/
theorem execute_search_spec (env : DriverEnv) (startTime endTime : ℚ)
    (h : startTime ≤ endTime) :
    execute_search env startTime endTime =
        outcome_of_run env (endTime - startTime) ∧
      0 ≤ (execute_search env startTime endTime).execution_time := by
  constructor
  · obtain ⟨nav, waitBox, typing, submit, waitResults, behaviorExc, url⟩ := env
    cases nav <;> cases waitBox <;> cases typing <;> cases submit <;>
      cases waitResults <;> cases behaviorExc <;> rfl
  · rw [execute_search_time]
    linarith

theorem execute_search_spec_witness :
    execute_search timeoutEnv 0 1 = outcome_of_run timeoutEnv (1 - 0) ∧
      0 ≤ (execute_search timeoutEnv 0 1).execution_time :=
  execute_search_spec timeoutEnv 0 1 (by norm_num)

/-- C8 counterexample: with every driver step healthy except the typing
routine, whose send-keys call raises, the exception escapes
`_human_like_typing` unhandled and the enclosing search attempt fails —
refuting the claim that exceptions in both behaviour-simulation routines
are swallowed at debug severity and never fail the attempt. -/
theorem typing_exception_fails_attempt :
    human_like_typing (.exc (strOf "element not interactable")) =
        .error (.other (strOf "element not interactable")) ∧
      (execute_search typingFailEnv 0 1).success = false :=
  ⟨rfl, rfl⟩

/-- C8 amended: only the post-search routine `_simulate_human_behavior`
swallows its exceptions (emitting just a debug log line), so what is
raised inside it never changes the outcome of `execute_search`; an
exception inside `_human_like_typing` instead propagates to the handlers
of `execute_search`, which record a failed outcome tagged
`error: <message>`. -/
theorem behavior_exceptions_amended (e : Option PyExc) (env : DriverEnv)
    (startTime endTime : ℚ) :
    simulate_human_behavior e = .ok e.isSome ∧
      execute_search { env with behaviorExc := e } startTime endTime =
        execute_search { env with behaviorExc := none } startTime endTime ∧
      (∀ m, env.nav = .ret → env.waitBox = .ret → env.typing = .exc m →
        execute_search env startTime endTime =
          ⟨false, strOf "error: " ++ m, endTime - startTime⟩) := by
  refine ⟨?_, ?_, ?_⟩
  · cases e <;> rfl
  · obtain ⟨nav, waitBox, typing, submit, waitResults, behaviorExc, url⟩ := env
    cases nav <;> cases waitBox <;> cases typing <;> cases submit <;>
      cases waitResults <;> cases e <;> rfl
  · intro m h1 h2 h3
    obtain ⟨nav, waitBox, typing, submit, waitResults, behaviorExc, url⟩ := env
    simp only at h1 h2 h3
    subst h1
    subst h2
    subst h3
    rfl

theorem behavior_exceptions_amended_witness :
    execute_search typingFailEnv 0 1 =
      ⟨false, strOf "error: " ++ strOf "element not interactable", 1 - 0⟩ :=
  (behavior_exceptions_amended none typingFailEnv 0 1).2.2
    (strOf "element not interactable") rfl rfl rfl

/-- C1 counterexample: for a timed-out page wait the outcome locator is
`timeout`, yet the row `_log_search_result` appends for that outcome
carries `failed` — not `timeout` — in its `response_status` column. -/
theorem response_status_cex :
    (execute_search timeoutEnv 0 1).result_locator = strOf "timeout" ∧
      (log_search_result (strOf "ts") (strOf "q") (strOf "science")
          (strOf "fact") (execute_search timeoutEnv 0 1).success
          (execute_search timeoutEnv 0 1).result_locator
          (execute_search timeoutEnv 0 1).execution_time).response_status =
        strOf "failed" ∧
      ¬ (strOf "failed" = strOf "timeout") :=
  ⟨rfl, rfl, by decide⟩

/-- C1 amended: the `response_status` column of every appended row is
`success` or `failed`, `success` exactly when the outcome succeeded; the
failure-kind tag (`timeout` or `error: <detail>`) is recorded in the
`search_url` column of the row, not in `response_status`. -/
theorem response_status_amended (ts q c qt : PyStr) (success : Bool)
    (url : PyStr) (t : ℚ) :
    ((log_search_result ts q c qt success url t).response_status =
        strOf "success" ∨
      (log_search_result ts q c qt success url t).response_status =
        strOf "failed") ∧
      ((log_search_result ts q c qt success url t).response_status =
          strOf "success" ↔ success = true) ∧
      (log_search_result ts q c qt success url t).search_url = url := by
  have hne : ¬ strOf "failed" = strOf "success" := by decide
  cases success
  · refine ⟨Or.inr rfl, ?_, rfl⟩
    constructor
    · intro hcontra
      exact absurd hcontra hne
    · intro hcontra
      exact absurd hcontra Bool.false_ne_true
  · exact ⟨Or.inl rfl, ⟨fun _ => rfl, fun _ => rfl⟩, rfl⟩

/-! ### Lemmas about the run loop, the summary, and main -/

theorem run_log_rows_aux (events : List CycleEvent) :
    ∀ s : RunState, (∀ e ∈ events, isOutcome e = true) →
      (run_loop s events).log = s.log ++ events.filterMap rowOfEvent ∧
        (run_loop s events).successful_searches +
            (run_loop s events).failed_searches =
          s.successful_searches + s.failed_searches + events.length := by
  induction events with
  | nil =>
    intro s _
    simp [run_loop]
  | cons e rest ih =>
    intro s h
    have he := h e (List.mem_cons_self e rest)
    have hrest : ∀ x ∈ rest, isOutcome x = true := fun x hx =>
      h x (List.mem_cons_of_mem e hx)
    cases e with
    | outcome ts q c qt success url t =>
      obtain ⟨hlog, hcount⟩ := ih _ hrest
      refine ⟨?_, ?_⟩
      · rw [show run_loop s (CycleEvent.outcome ts q c qt success url t :: rest)
            = run_loop
              { s with
                log := s.log ++ [log_search_result ts q c qt success url t],
                successful_searches := if success then
                  s.successful_searches + 1 else s.successful_searches,
                failed_searches := if success then
                  s.failed_searches else s.failed_searches + 1 } rest from rfl,
          hlog]
        simp [rowOfEvent]
      · rw [show run_loop s (CycleEvent.outcome ts q c qt success url t :: rest)
            = run_loop
              { s with
                log := s.log ++ [log_search_result ts q c qt success url t],
                successful_searches := if success then
                  s.successful_searches + 1 else s.successful_searches,
                failed_searches := if success then
                  s.failed_searches else s.failed_searches + 1 } rest from rfl]
        rw [hcount]
        cases success <;> simp <;> omega
    | interrupt => simp [isOutcome] at he
    | unexpected m r => simp [isOutcome] at he

theorem filterMap_rowOfEvent_length (events : List CycleEvent)
    (h : ∀ e ∈ events, isOutcome e = true) :
    (events.filterMap rowOfEvent).length = events.length := by
  induction events with
  | nil => rfl
  | cons e rest ih =>
    have he := h e (List.mem_cons_self e rest)
    have hrest : ∀ x ∈ rest, isOutcome x = true := fun x hx =>
      h x (List.mem_cons_of_mem e hx)
    cases e with
    | outcome ts q c qt success url t =>
      simp [rowOfEvent, ih hrest]
    | interrupt => simp [isOutcome] at he
    | unexpected m r => simp [isOutcome] at he

/-- C2 counterexample: a one-cycle run whose single cycle ends in the
unexpected-exception handler (with a message matching neither recovery
keyword, so the loop runs to completion with no early break) increments
the failure counter yet appends no row: the log holds 0 rows, not 1. -/
theorem run_log_rows_cex :
    (run_loop initState
        [.unexpected (strOf "csv file locked") true]).failed_searches = 1 ∧
      (run_loop initState
        [.unexpected (strOf "csv file locked") true]).log.length = 0 := by
  constructor <;> decide

/-- C2 amended: rows correspond one-to-one, in execution order, to the
cycles that complete the normal search-and-log path: a run over N cycles
in which every cycle completes that path appends exactly N rows in cycle
order; a cycle ending in the unexpected-exception handler increments the
failure counter but appends no row. -/
theorem run_log_rows (events : List CycleEvent)
    (h : ∀ e ∈ events, isOutcome e = true) :
    (run_loop initState events).log = events.filterMap rowOfEvent ∧
      (run_loop initState events).log.length = events.length ∧
      (run_loop initState events).successful_searches +
          (run_loop initState events).failed_searches = events.length := by
  obtain ⟨hlog, hcount⟩ := run_log_rows_aux events initState h
  refine ⟨by simpa [initState] using hlog, ?_,
    by simpa [initState] using hcount⟩
  rw [hlog]
  simp [filterMap_rowOfEvent_length events h, initState]

theorem run_log_rows_witness :
    (run_loop initState [sampleOutcomeEvent]).log =
        [sampleOutcomeEvent].filterMap rowOfEvent ∧
      (run_loop initState [sampleOutcomeEvent]).log.length = 1 ∧
      (run_loop initState [sampleOutcomeEvent]).successful_searches +
          (run_loop initState [sampleOutcomeEvent]).failed_searches = 1 :=
  run_log_rows [sampleOutcomeEvent] (by decide)

/-- C3: when a cycle raises an unexpected exception the failure counter
is incremented; when the exception text contains `driver` or `session`
(case-insensitive) exactly one recovery attempt is made before the next
cycle — after a failed recovery no further cycles execute and the loop
exits with the state recorded so far (from which the final summary is
produced), after a successful one the loop continues — and when the text
matches neither keyword no recovery is attempted and the loop
continues. -/
theorem run_unexpected_recovery (s : RunState) (msg : PyStr) (rOk : Bool)
    (rest : List CycleEvent) :
    (session_fault_kw msg = false →
      run_loop s (.unexpected msg rOk :: rest) =
        run_loop { s with failed_searches := s.failed_searches + 1 }
          rest) ∧
    (session_fault_kw msg = true → rOk = false →
      run_loop s (.unexpected msg rOk :: rest) =
        { s with failed_searches := s.failed_searches + 1,
                 recovery_attempts := s.recovery_attempts + 1 }) ∧
    (session_fault_kw msg = true → rOk = true →
      run_loop s (.unexpected msg rOk :: rest) =
        run_loop
          { s with failed_searches := s.failed_searches + 1,
                   recovery_attempts := s.recovery_attempts + 1 }
          rest) := by
  refine ⟨?_, ?_, ?_⟩
  · intro hkw
    simp [run_loop, hkw]
  · intro hkw hr
    subst hr
    simp [run_loop, hkw]
  · intro hkw hr
    subst hr
    simp [run_loop, hkw]

theorem run_unexpected_recovery_witness :
    run_loop initState
        [CycleEvent.unexpected (strOf "invalid session id") false,
          CycleEvent.interrupt] =
      { initState with
        failed_searches := initState.failed_searches + 1,
        recovery_attempts := initState.recovery_attempts + 1 } :=
  (run_unexpected_recovery initState (strOf "invalid session id") false
      [CycleEvent.interrupt]).2.1 (by decide) rfl

/-- C9 counterexample: when initialization raises after the driver has
been created (for instance the CSV-header write fails), the `with`
statement never enters the context: `cleanup` does not run — the live
browser session is not torn down — and no final summary is produced. -/
theorem cleanup_on_exit_cex :
    (main (.failAfterBrowser (strOf "csv header write failed"))
        [] 0 0).driverCreated = true ∧
      (main (.failAfterBrowser (strOf "csv header write failed"))
        [] 0 0).cleanupRan = false ∧
      (main (.failAfterBrowser (strOf "csv header write failed"))
        [] 0 0).summary = none :=
  ⟨rfl, rfl, rfl⟩

/-- C9 amended: once initialization succeeds, every exit of the run loop
— normal completion, interrupt, or fatal recovery failure — produces the
final summary over the accumulated counters, and `cleanup` runs via the
context-manager exit; when initialization itself raises, the context is
never entered, so `cleanup` does not run and no summary is produced —
only the fatal message is printed. -/
theorem cleanup_on_exit_amended (init : InitResult)
    (events : List CycleEvent) (sessionStart now : ℚ) :
    (init = .ok →
      (main init events sessionStart now).cleanupRan = true ∧
        (main init events sessionStart now).summary =
          some (print_final_summary
            (run_loop initState events).successful_searches
            (run_loop initState events).failed_searches sessionStart
            now)) ∧
    (init ≠ .ok →
      (main init events sessionStart now).cleanupRan = false ∧
        (main init events sessionStart now).summary = none ∧
        (main init events sessionStart now).fatalPrinted = true) := by
  constructor
  · intro h
    subst h
    exact ⟨rfl, rfl⟩
  · intro h
    cases init with
    | ok => exact absurd rfl h
    | failAfterBrowser m => exact ⟨rfl, rfl, rfl⟩
    | failBeforeBrowser m => exact ⟨rfl, rfl, rfl⟩

theorem cleanup_on_exit_amended_witness :
    (main .ok [CycleEvent.interrupt] 0 5).cleanupRan = true ∧
      (main .ok [CycleEvent.interrupt] 0 5).summary =
        some (print_final_summary
          (run_loop initState [CycleEvent.interrupt]).successful_searches
          (run_loop initState [CycleEvent.interrupt]).failed_searches
          0 5) :=
  (cleanup_on_exit_amended .ok [CycleEvent.interrupt] 0 5).1 rfl

/-- C10: the final-summary rate computation is total for all counter
values: with zero executed cycles the rate is 0 and no division is
attempted, otherwise it equals successful / (successful + failed) * 100;
in every case the rate lies between 0 and 100. -/
theorem success_rate_total (successful failed : Nat)
    (sessionStart now : ℚ) :
    ((successful + failed = 0 →
        (print_final_summary successful failed sessionStart
          now).success_rate = 0) ∧
      (0 < successful + failed →
        (print_final_summary successful failed sessionStart
            now).success_rate =
          (successful : ℚ) / ((successful : ℚ) + (failed : ℚ)) * 100)) ∧
      0 ≤ (print_final_summary successful failed sessionStart
        now).success_rate ∧
      (print_final_summary successful failed sessionStart
        now).success_rate ≤ 100 := by
  have hrate : (print_final_summary successful failed sessionStart
      now).success_rate =
      if 0 < successful + failed then
        ((successful : ℚ) / (((successful + failed : Nat)) : ℚ) * 100)
      else 0 := rfl
  refine ⟨⟨?_, ?_⟩, ?_, ?_⟩
  · intro h
    rw [hrate, if_neg (by omega)]
  · intro h
    rw [hrate, if_pos h]
    push_cast
    ring
  · rw [hrate]
    split
    · positivity
    · norm_num
  · rw [hrate]
    split
    · next h =>
      have h1 : (successful : ℚ) ≤ ((successful + failed : Nat) : ℚ) := by
        exact_mod_cast Nat.le_add_right successful failed
      have h2 : (0 : ℚ) < ((successful + failed : Nat) : ℚ) := by
        exact_mod_cast h
      calc (successful : ℚ) / ((successful + failed : Nat) : ℚ) * 100
          ≤ 1 * 100 := by
            apply mul_le_mul_of_nonneg_right _ (by norm_num)
            exact (div_le_one h2).mpr h1
        _ = 100 := by norm_num
    · norm_num

theorem success_rate_total_witness :
    (print_final_summary 2 1 0 5).success_rate =
      ((2 : Nat) : ℚ) / (((2 : Nat) : ℚ) + ((1 : Nat) : ℚ)) * 100 :=
  (success_rate_total 2 1 0 5).1.2 (by norm_num)

end AISearchAgent
